import Mathlib

/-!
Verification of the `VoiceProcessingAudioUnit` component declared in
`sdk/objc/native/src/audio/voice_processing_audio_unit.h`.

The repository contains only the header: the class declaration, the
`State` enumeration and the field list.  The member-function bodies live in
an implementation file that is not part of the sources, so every behavioral
definition below is modelled from the specification document, as its doc
comment states.  The data model (fields, state enumeration, operation
signatures) follows the header.
-/

namespace webrtc

namespace ios_adm

/-- Platform status code (`OSStatus`), a signed 32-bit integer; the claims
only pass it through unchanged, so it is modelled as `Int`. -/
abbrev OSStatus := Int

/-- The success status code. -/
def noErr : OSStatus := 0

/-- Error status signalled on a fast-failing lifecycle misuse (any nonzero
code; the exact value is unspecified). -/
def kInvalidStateError : OSStatus := -1

/-- Lifecycle state of the audio unit, from the header
(`VoiceProcessingAudioUnit::State`). -/
inductive State : Type where
  | kUninitialized : State
  | kInitialized : State
  | kStarted : State
deriving DecidableEq, Repr

/-- Which engine topology an engine handle belongs to: the single
voice-processing duplex engine, or the plain playback engine used on the
bypass path. -/
inductive EngineKind : Type where
  | voiceProcessingIO : EngineKind
  | playback : EngineKind
deriving DecidableEq, Repr

/-- An opaque platform engine handle (`AudioUnit`), modelled by its kind and
an identifier standing for the allocated instance. -/
structure Engine : Type where
  kind : EngineKind
  id : Nat
deriving DecidableEq, Repr

/-- The fields of `VoiceProcessingAudioUnit`, from the header: the immutable
bypass flag, the non-owning observer pointer (modelled as an identifier), the
engine handle `vpio_unit_` (an `Option` since no engine exists before
creation or after disposal), the lifecycle state, and the configuration
captured at initialize time. -/
structure VoiceProcessingAudioUnit : Type where
  bypass_voice_processing_ : Bool
  observer_ : Nat
  vpio_unit_ : Option Engine
  state_ : State
  sample_rate_ : Rat
  enable_playout_ : Bool
  enable_recording_ : Bool
deriving DecidableEq, Repr

/-- Responses of the platform audio framework to the engine operations a
single call may perform: the audio session's current sample rate, the
identifier a successful creation returns, and the success or failure of each
platform call. -/
structure Platform : Type where
  session_sample_rate : Rat
  new_engine_id : Nat
  create_ok : Bool
  set_format_ok : Bool
  au_initialize_ok : Bool
  set_property_ok : Bool
  start_status : OSStatus
  stop_ok : Bool
  render_status : OSStatus
deriving DecidableEq, Repr

/-- Events observable at the engine interface: creation of an engine handle,
disposal of an engine handle, and a render call forwarded to an engine. -/
inductive EngineEvent : Type where
  | create (e : Engine) : EngineEvent
  | dispose (e : Engine) : EngineEvent
  | render (e : Engine) (flags time_stamp bus_number num_frames io_data : Nat) : EngineEvent
deriving DecidableEq, Repr

/-- Modelled from the spec: the constructor (the implementation file is
absent from the sources).  Construction stores the immutable bypass flag and
the observer pointer; no engine exists yet and the state is
`kUninitialized`. -/
def construct (bypass_voice_processing : Bool) (observer : Nat) :
    VoiceProcessingAudioUnit :=
  { bypass_voice_processing_ := bypass_voice_processing
    observer_ := observer
    vpio_unit_ := none
    state_ := State.kUninitialized
    sample_rate_ := 0
    enable_playout_ := false
    enable_recording_ := false }

/-- `GetState` returns the current lifecycle state (header, line 76). -/
def GetState (u : VoiceProcessingAudioUnit) : State := u.state_

/-- Modelled from the spec: `CreateVoiceProcessingAU` (declared in the
header; body absent from the sources) builds the single voice-processing
duplex engine, or creates nothing when the platform fails. -/
def CreateVoiceProcessingAU (p : Platform) (u : VoiceProcessingAudioUnit) :
    Bool × VoiceProcessingAudioUnit × List EngineEvent :=
  if p.create_ok then
    let e : Engine := { kind := EngineKind.voiceProcessingIO, id := p.new_engine_id }
    (true, { u with vpio_unit_ := some e }, [EngineEvent.create e])
  else (false, u, [])

/-- Modelled from the spec: `CreatePlaybackAU` (declared in the header; body
absent from the sources) builds the plain playback engine used when voice
processing is bypassed, or creates nothing when the platform fails. -/
def CreatePlaybackAU (p : Platform) (u : VoiceProcessingAudioUnit) :
    Bool × VoiceProcessingAudioUnit × List EngineEvent :=
  if p.create_ok then
    let e : Engine := { kind := EngineKind.playback, id := p.new_engine_id }
    (true, { u with vpio_unit_ := some e }, [EngineEvent.create e])
  else (false, u, [])

/-- Modelled from the spec: `DisposeAudioUnit` (declared in the header; body
absent from the sources) deletes the underlying engine handle when one
exists and does nothing otherwise, making teardown idempotent. -/
def DisposeAudioUnit (u : VoiceProcessingAudioUnit) :
    VoiceProcessingAudioUnit × List EngineEvent :=
  ({ u with vpio_unit_ := none },
   match u.vpio_unit_ with
   | some e => [EngineEvent.dispose e]
   | none => [])

/-- Modelled from the spec: `Initialize(sample_rate)` (declared in the
header; body absent from the sources).  Calling it outside `kUninitialized`
is rejected with no effect; otherwise the engine matching the bypass flag is
created, the stream format must match the session rate exactly (no internal
resampling) and the platform must accept the format and the engine
initialization; on any partial failure the partially created engine is
disposed before returning failure, leaving the state `kUninitialized`. -/
def Initialize (p : Platform) (u : VoiceProcessingAudioUnit)
    (sample_rate : Rat) : Bool × VoiceProcessingAudioUnit × List EngineEvent :=
  if u.state_ ≠ State.kUninitialized then (false, u, [])
  else
    let c := if u.bypass_voice_processing_ then CreatePlaybackAU p u
             else CreateVoiceProcessingAU p u
    if c.1 = false then (false, u, c.2.2)
    else if sample_rate ≠ p.session_sample_rate then
      let d := DisposeAudioUnit c.2.1
      (false, d.1, c.2.2 ++ d.2)
    else if p.set_format_ok = false then
      let d := DisposeAudioUnit c.2.1
      (false, d.1, c.2.2 ++ d.2)
    else if p.au_initialize_ok = false then
      let d := DisposeAudioUnit c.2.1
      (false, d.1, c.2.2 ++ d.2)
    else
      (true, { c.2.1 with state_ := State.kInitialized, sample_rate_ := sample_rate },
       c.2.2)

/-- Modelled from the spec: `EnableRecording(enable)` (declared in the
header; body absent from the sources) toggles the recording bus, failing
when the platform rejects the property change. -/
def EnableRecording (p : Platform) (u : VoiceProcessingAudioUnit)
    (enable : Bool) : Bool × VoiceProcessingAudioUnit :=
  if p.set_property_ok then (true, { u with enable_recording_ := enable })
  else (false, u)

/-- Modelled from the spec: `EnablePlayout(enable)` (declared in the header;
body absent from the sources) toggles the playout bus, failing when the
platform rejects the property change. -/
def EnablePlayout (p : Platform) (u : VoiceProcessingAudioUnit)
    (enable : Bool) : Bool × VoiceProcessingAudioUnit :=
  if p.set_property_ok then (true, { u with enable_playout_ := enable })
  else (false, u)

/-- Modelled from the spec: `Start()` (declared in the header; body absent
from the sources).  Calling it outside `kInitialized` is a programming
error: fail fast with an error status and no transition; otherwise the
engine start status is returned, moving to `kStarted` only on success. -/
def Start (p : Platform) (u : VoiceProcessingAudioUnit) :
    OSStatus × VoiceProcessingAudioUnit :=
  if u.state_ ≠ State.kInitialized then (kInvalidStateError, u)
  else if p.start_status = noErr then (noErr, { u with state_ := State.kStarted })
  else (p.start_status, u)

/-- Modelled from the spec: `Stop()` (declared in the header; body absent
from the sources).  Calling it outside `kStarted` fails with no effect;
otherwise the engine is stopped and the state is forced back to
`kInitialized` even when the platform reports a stop failure, to avoid
stuck-active hardware. -/
def Stop (p : Platform) (u : VoiceProcessingAudioUnit) :
    Bool × VoiceProcessingAudioUnit :=
  if u.state_ ≠ State.kStarted then (false, u)
  else (p.stop_ok, { u with state_ := State.kInitialized })

/-- Modelled from the spec: the Uninitialize operation (declared in the header; body
absent from the sources).  It never signals failure outward; from
`kStarted` a stop is forced first (so the state passes through
`kInitialized`); engine resources are disposed unconditionally, even when
teardown reports an error, and the state is reset to `kUninitialized`.  The
returned list of states records the values the state field takes during the
call, and the event list records engine disposals. -/
def Uninitialize (p : Platform) (u : VoiceProcessingAudioUnit) :
    VoiceProcessingAudioUnit × List State × List EngineEvent :=
  if u.state_ = State.kStarted then
    let s := Stop p u
    let d := DisposeAudioUnit { s.2 with state_ := State.kUninitialized }
    (d.1, [State.kInitialized, State.kUninitialized], d.2)
  else
    let d := DisposeAudioUnit { u with state_ := State.kUninitialized }
    (d.1, [State.kUninitialized], d.2)

/-- Modelled from the spec: destruction guarantees that Uninitialize has run
(scoped resource release on all exit paths). -/
def destruct (p : Platform) (u : VoiceProcessingAudioUnit) :
    VoiceProcessingAudioUnit × List State × List EngineEvent :=
  Uninitialize p u

/-- Modelled from the spec: `Render` (declared in the header; body absent
from the sources) forwards directly to the underlying engine's render entry
point and returns the underlying status code unchanged; with no engine
handle there is nothing to render and an error status results. -/
def Render (p : Platform) (u : VoiceProcessingAudioUnit)
    (flags time_stamp output_bus_number num_frames io_data : Nat) :
    OSStatus × List EngineEvent :=
  match u.vpio_unit_ with
  | some e =>
      (p.render_status,
       [EngineEvent.render e flags time_stamp output_bus_number num_frames io_data])
  | none => (kInvalidStateError, [])

/-- Behavior of an external `VoiceProcessingAudioUnitObserver`: each method
takes (flags, timestamp, bus number, frame count, buffer list) and returns a
status code.  Pointer-typed arguments are modelled by identifiers. -/
structure VoiceProcessingAudioUnitObserver : Type where
  OnDeliverRecordedData : Nat → Nat → Nat → Nat → Nat → OSStatus
  OnGetPlayoutData : Nat → Nat → Nat → Nat → Nat → OSStatus

/-- Events observable at the observer interface: one entry per observer
method invocation, recording the observer pointer and all arguments. -/
inductive ObserverEvent : Type where
  | deliverRecordedData
      (observer flags time_stamp bus_number num_frames io_data : Nat) : ObserverEvent
  | getPlayoutData
      (observer flags time_stamp bus_number num_frames io_data : Nat) : ObserverEvent
deriving DecidableEq, Repr

/-- Modelled from the spec: `NotifyDeliverRecordedData` (declared in the
header; body absent from the sources) synchronously invokes the observer's
deliver-recorded-data method once with the same arguments and returns its
status unchanged.  `obs_map` resolves an observer pointer to its behavior. -/
def NotifyDeliverRecordedData
    (obs_map : Nat → VoiceProcessingAudioUnitObserver)
    (u : VoiceProcessingAudioUnit)
    (flags time_stamp bus_number num_frames io_data : Nat) :
    OSStatus × List ObserverEvent :=
  ((obs_map u.observer_).OnDeliverRecordedData
      flags time_stamp bus_number num_frames io_data,
   [ObserverEvent.deliverRecordedData u.observer_
      flags time_stamp bus_number num_frames io_data])

/-- Modelled from the spec: `NotifyGetPlayoutData` (declared in the header;
body absent from the sources) synchronously invokes the observer's
get-playout-data method once with the same arguments and returns its status
unchanged. -/
def NotifyGetPlayoutData
    (obs_map : Nat → VoiceProcessingAudioUnitObserver)
    (u : VoiceProcessingAudioUnit)
    (flags time_stamp bus_number num_frames io_data : Nat) :
    OSStatus × List ObserverEvent :=
  ((obs_map u.observer_).OnGetPlayoutData
      flags time_stamp bus_number num_frames io_data,
   [ObserverEvent.getPlayoutData u.observer_
      flags time_stamp bus_number num_frames io_data])

/-- Modelled from the spec: the static recording callback (header, lines
112-117; body absent from the sources).  It resolves the opaque context
pointer `in_ref_con` to the owning unit instance (`mem` models that
resolution) and forwards to `NotifyDeliverRecordedData`. -/
def OnDeliverRecordedDataStatic
    (mem : Nat → VoiceProcessingAudioUnit)
    (obs_map : Nat → VoiceProcessingAudioUnitObserver)
    (in_ref_con flags time_stamp bus_number num_frames io_data : Nat) :
    OSStatus × List ObserverEvent :=
  NotifyDeliverRecordedData obs_map (mem in_ref_con)
    flags time_stamp bus_number num_frames io_data

/-- Modelled from the spec: the static playout callback (header, lines
106-111; body absent from the sources).  It resolves the opaque context
pointer to the owning unit instance and forwards to
`NotifyGetPlayoutData`. -/
def OnGetPlayoutDataStatic
    (mem : Nat → VoiceProcessingAudioUnit)
    (obs_map : Nat → VoiceProcessingAudioUnitObserver)
    (in_ref_con flags time_stamp bus_number num_frames io_data : Nat) :
    OSStatus × List ObserverEvent :=
  NotifyGetPlayoutData obs_map (mem in_ref_con)
    flags time_stamp bus_number num_frames io_data

/-- One public control-thread operation together with the platform responses
it will receive; the operation arguments mirror the public surface of the
class. -/
inductive Op : Type where
  | initializeOp (p : Platform) (sample_rate : Rat) : Op
  | startOp (p : Platform) : Op
  | stopOp (p : Platform) : Op
  | uninitializeOp (p : Platform) : Op
  | enableRecordingOp (p : Platform) (enable : Bool) : Op
  | enablePlayoutOp (p : Platform) (enable : Bool) : Op
  | renderOp (p : Platform)
      (flags time_stamp output_bus_number num_frames io_data : Nat) : Op
deriving Repr

/-- Applies one public operation, returning the updated unit and the list of
values the state field takes during the call (empty when the state is not
written). -/
def applyOp (op : Op) (u : VoiceProcessingAudioUnit) :
    VoiceProcessingAudioUnit × List State :=
  match op with
  | Op.initializeOp p r =>
      let res := Initialize p u r
      (res.2.1, if res.1 then [State.kInitialized] else [])
  | Op.startOp p =>
      let res := Start p u
      (res.2, if res.1 = noErr then [State.kStarted] else [])
  | Op.stopOp p =>
      let res := Stop p u
      (res.2, if u.state_ = State.kStarted then [State.kInitialized] else [])
  | Op.uninitializeOp p =>
      let res := Uninitialize p u
      (res.1, res.2.1)
  | Op.enableRecordingOp p b => ((EnableRecording p u b).2, [])
  | Op.enablePlayoutOp p b => ((EnablePlayout p u b).2, [])
  | Op.renderOp _ _ _ _ _ _ => (u, [])

/-- Runs a sequence of public operations, concatenating the state traces. -/
def run (u : VoiceProcessingAudioUnit) : List Op →
    VoiceProcessingAudioUnit × List State
  | [] => (u, [])
  | op :: ops =>
      let st := applyOp op u
      let rest := run st.1 ops
      (rest.1, st.2 ++ rest.2)

/-- Whether a single observed state change is a step of at most one along
the chain Uninitialized - Initialized - Started: staying put is allowed,
and the only forbidden moves are the direct jumps between `kUninitialized`
and `kStarted`. -/
def chainStep : State → State → Bool
  | State.kUninitialized, State.kStarted => false
  | State.kStarted, State.kUninitialized => false
  | _, _ => true

/-- Whether every consecutive pair in a list of states is an allowed chain
step. -/
def chainWalk : List State → Bool
  | [] => true
  | [_] => true
  | s :: t :: rest => chainStep s t && chainWalk (t :: rest)

/-- Whether the engine handle, when present, has the kind selected by the
bypass flag: the plain playback engine on the bypass path and the
voice-processing engine otherwise. -/
def engineKindMatchesBypass (u : VoiceProcessingAudioUnit) : Bool :=
  match u.vpio_unit_ with
  | none => true
  | some e =>
      e.kind = (if u.bypass_voice_processing_ then EngineKind.playback
                else EngineKind.voiceProcessingIO)

/-- A concrete platform environment in which every engine operation
succeeds and the audio session runs at 48 kHz. -/
def platform0 : Platform :=
  { session_sample_rate := 48000
    new_engine_id := 5
    create_ok := true
    set_format_ok := true
    au_initialize_ok := true
    set_property_ok := true
    start_status := 0
    stop_ok := true
    render_status := 0 }

/-- A freshly constructed unit with voice processing enabled. -/
def unit0 : VoiceProcessingAudioUnit := construct false 1

/-- A freshly constructed unit on the bypass path. -/
def unitBypass : VoiceProcessingAudioUnit := construct true 2

/-- The unit obtained by successfully initializing `unit0` at 48 kHz. -/
def unitInit : VoiceProcessingAudioUnit := (Initialize platform0 unit0 48000).2.1

/-- A sample operation sequence: initialize at 48 kHz, then start. -/
def opsDemo : List Op := [Op.initializeOp platform0 48000, Op.startOp platform0]

/-- The first component of a disposal keeps every field except the engine
handle, which becomes `none`. -/
theorem dispose_fst (u : VoiceProcessingAudioUnit) :
    (DisposeAudioUnit u).1 = { u with vpio_unit_ := none } := rfl

/-- Appending chain walks: if a walk starting at `s` traverses `t1` and a
walk starting at the last state of `t1` traverses `t2`, the concatenation is
a chain walk. -/
theorem chainWalk_append (s : State) (t1 t2 : List State)
    (h1 : chainWalk (s :: t1) = true)
    (h2 : chainWalk (t1.getLastD s :: t2) = true) :
    chainWalk (s :: (t1 ++ t2)) = true := by
  induction t1 generalizing s with
  | nil => simpa using h2
  | cons a t ih =>
      have h1' : chainStep s a = true ∧ chainWalk (a :: t) = true := by
        simpa [chainWalk, Bool.and_eq_true] using h1
      have h2' : chainWalk (t.getLastD a :: t2) = true := by
        cases t with
        | nil => simpa using h2
        | cons b t' => simpa [List.getLastD, List.getLast?_cons_cons] using h2
      simpa [chainWalk, Bool.and_eq_true] using ⟨h1'.1, ih a h1'.2 h2'⟩

/-- Every single public operation produces a chain-walking state trace. -/
theorem applyOp_chain (op : Op) (u : VoiceProcessingAudioUnit) :
    chainWalk (u.state_ :: (applyOp op u).2) = true := by
  cases op <;> cases hs : u.state_ <;>
    simp [applyOp, Initialize, Start, Stop, Uninitialize, EnableRecording,
      EnablePlayout, DisposeAudioUnit, CreatePlaybackAU, CreateVoiceProcessingAU,
      hs, chainWalk, chainStep, noErr, kInvalidStateError] <;>
    split_ifs <;> simp [chainWalk, chainStep]

/-- The state after a public operation is the last entry of its state trace
(or the old state when the trace is empty). -/
theorem applyOp_last (op : Op) (u : VoiceProcessingAudioUnit) :
    (applyOp op u).1.state_ = ((applyOp op u).2).getLastD u.state_ := by
  cases op <;> cases hs : u.state_ <;>
    simp [applyOp, Initialize, Start, Stop, Uninitialize, EnableRecording,
      EnablePlayout, DisposeAudioUnit, CreatePlaybackAU, CreateVoiceProcessingAU,
      hs, noErr, kInvalidStateError] <;>
    split_ifs <;> simp_all

/-- The bypass flag is preserved by every single public operation. -/
theorem applyOp_bypass (op : Op) (u : VoiceProcessingAudioUnit) :
    (applyOp op u).1.bypass_voice_processing_ = u.bypass_voice_processing_ := by
  cases op <;> cases hs : u.state_ <;>
    simp [applyOp, Initialize, Start, Stop, Uninitialize, EnableRecording,
      EnablePlayout, DisposeAudioUnit, CreatePlaybackAU, CreateVoiceProcessingAU,
      hs] <;>
    split_ifs <;> simp

/-- Every single public operation preserves the match between the bypass
flag and the kind of the engine handle. -/
theorem applyOp_kindOK (op : Op) (u : VoiceProcessingAudioUnit)
    (h : engineKindMatchesBypass u = true) :
    engineKindMatchesBypass (applyOp op u).1 = true := by
  cases op <;> cases hs : u.state_ <;>
    simp [applyOp, Initialize, Start, Stop, Uninitialize, EnableRecording,
      EnablePlayout, DisposeAudioUnit, CreatePlaybackAU, CreateVoiceProcessingAU,
      engineKindMatchesBypass, hs] <;>
    split_ifs <;> simp_all [engineKindMatchesBypass]

/-- The bypass flag is preserved by every sequence of public operations. -/
theorem run_bypass (u : VoiceProcessingAudioUnit) (ops : List Op) :
    (run u ops).1.bypass_voice_processing_ = u.bypass_voice_processing_ := by
  induction ops generalizing u with
  | nil => rfl
  | cons op ops ih =>
      simpa [run, applyOp_bypass] using
        (ih (applyOp op u).1).trans (applyOp_bypass op u)

/-- The match between bypass flag and engine kind is preserved by every
sequence of public operations. -/
theorem run_kindOK (u : VoiceProcessingAudioUnit) (ops : List Op)
    (h : engineKindMatchesBypass u = true) :
    engineKindMatchesBypass (run u ops).1 = true := by
  induction ops generalizing u with
  | nil => exact h
  | cons op ops ih => exact ih (applyOp op u).1 (applyOp_kindOK op u h)

/-- Claim C1: for every sequence of calls to the public operations
(Initialize, Start, Stop, Uninitialize, EnableRecording, EnablePlayout,
Render), the value returned by `GetState` only ever steps along the chain
Uninitialized - Initialized - Started and back one step at a time; in
particular the state never moves from Started to Uninitialized without
passing through Initialized. -/
theorem state_chain_walk_for_all_sequences
    (u : VoiceProcessingAudioUnit) (ops : List Op) :
    chainWalk (GetState u :: (run u ops).2) = true := by
  induction ops generalizing u with
  | nil => rfl
  | cons op ops ih =>
      have h2 : chainWalk
          (((applyOp op u).2).getLastD u.state_ :: (run (applyOp op u).1 ops).2) =
            true := by
        rw [← applyOp_last op u]
        exact ih (applyOp op u).1
      simpa [run, GetState] using
        chainWalk_append u.state_ _ _ (applyOp_chain op u) h2

/-- Claim C2: whenever Initialize fails from the uninitialized state --
including the case where the requested rate cannot be matched without
internal resampling -- it returns false, the state stays Uninitialized, no
engine handle is retained, and any engine created during the call is
disposed before the call returns. -/
theorem initialize_failure_leaves_uninitialized
    (p : Platform) (u : VoiceProcessingAudioUnit) (sample_rate : Rat)
    (hs : GetState u = State.kUninitialized) (hv : u.vpio_unit_ = none) :
    (sample_rate ≠ p.session_sample_rate →
      (Initialize p u sample_rate).1 = false) ∧
    ((Initialize p u sample_rate).1 = false →
      GetState (Initialize p u sample_rate).2.1 = State.kUninitialized ∧
      (Initialize p u sample_rate).2.1.vpio_unit_ = none ∧
      (∀ e, EngineEvent.create e ∈ (Initialize p u sample_rate).2.2 →
        EngineEvent.dispose e ∈ (Initialize p u sample_rate).2.2)) := by
  have hs' : u.state_ = State.kUninitialized := hs
  by_cases hb : u.bypass_voice_processing_ <;>
    by_cases hc : p.create_ok <;>
      simp [Initialize, GetState, hs', hb, hc, CreatePlaybackAU,
        CreateVoiceProcessingAU, DisposeAudioUnit, hv] <;>
      split_ifs <;> simp_all

/-- Claim C2 witness: in a healthy platform at 48 kHz, initializing a fresh
unit at 44.1 kHz fails. -/
theorem initialize_failure_leaves_uninitialized_witness :
    (Initialize platform0 unit0 44100).1 = false :=
  (initialize_failure_leaves_uninitialized platform0 unit0 44100 rfl rfl).1
    (by decide)

/-- Claim C3 counterexample: calling Start on a freshly constructed
(uninitialized) unit returns an error status, but the state afterwards is
Uninitialized, not Initialized as the claim words it. -/
theorem start_from_uninitialized_counterexample :
    (Start platform0 unit0).1 ≠ noErr ∧
    GetState (Start platform0 unit0).2 ≠ State.kInitialized := by decide

/-- Claim C3 (amended): calling Start while the state is Uninitialized fails
fast: it returns an error status, performs no state transition, and the
state afterwards remains Uninitialized (the whole unit is unchanged). -/
theorem start_from_uninitialized_fails_fast
    (p : Platform) (u : VoiceProcessingAudioUnit)
    (h : GetState u = State.kUninitialized) :
    (Start p u).1 = kInvalidStateError ∧ (Start p u).2 = u := by
  have h' : u.state_ = State.kUninitialized := h
  simp [Start, h']

/-- Claim C3 witness: Start on the fresh unit fails fast with no change. -/
theorem start_from_uninitialized_fails_fast_witness :
    (Start platform0 unit0).1 = kInvalidStateError ∧
    (Start platform0 unit0).2 = unit0 :=
  start_from_uninitialized_fails_fast platform0 unit0 rfl

/-- Claim C4: calling Initialize a second time while the state is already
Initialized is rejected: it returns failure, no engine is constructed (no
engine events at all), and the unit -- state and engine handle included --
is unchanged. -/
theorem second_initialize_rejected
    (p : Platform) (u : VoiceProcessingAudioUnit) (sample_rate : Rat)
    (h : GetState u = State.kInitialized) :
    Initialize p u sample_rate = (false, u, []) := by
  have h' : u.state_ = State.kInitialized := h
  simp [Initialize, h']

/-- Claim C4 witness: re-initializing the already-initialized unit at a
different rate is rejected with no effect. -/
theorem second_initialize_rejected_witness :
    Initialize platform0 unitInit 44100 = (false, unitInit, []) :=
  second_initialize_rejected platform0 unitInit 44100 (by decide)

/-- Claim C5: every invocation of the static recording callback resolves the
context pointer to a unit instance and makes exactly one synchronous call to
that unit's observer's deliver-recorded-data method with the same arguments
(frame count included), returning the observer's status code unchanged. -/
theorem recording_callback_exactly_one_observer_call
    (mem : Nat → VoiceProcessingAudioUnit)
    (obs_map : Nat → VoiceProcessingAudioUnitObserver)
    (in_ref_con flags time_stamp bus_number num_frames io_data : Nat) :
    OnDeliverRecordedDataStatic mem obs_map in_ref_con
        flags time_stamp bus_number num_frames io_data =
      ((obs_map (mem in_ref_con).observer_).OnDeliverRecordedData
          flags time_stamp bus_number num_frames io_data,
       [ObserverEvent.deliverRecordedData (mem in_ref_con).observer_
          flags time_stamp bus_number num_frames io_data]) := rfl

/-- Claim C6: every invocation of the static playout callback resolves the
context pointer to the owning unit instance and makes exactly one
synchronous call to the observer's get-playout-data method with the same
arguments (frame count included), returning the observer's status code
unchanged. -/
theorem playout_callback_exactly_one_observer_call
    (mem : Nat → VoiceProcessingAudioUnit)
    (obs_map : Nat → VoiceProcessingAudioUnitObserver)
    (in_ref_con flags time_stamp bus_number num_frames io_data : Nat) :
    OnGetPlayoutDataStatic mem obs_map in_ref_con
        flags time_stamp bus_number num_frames io_data =
      ((obs_map (mem in_ref_con).observer_).OnGetPlayoutData
          flags time_stamp bus_number num_frames io_data,
       [ObserverEvent.getPlayoutData (mem in_ref_con).observer_
          flags time_stamp bus_number num_frames io_data]) := rfl

/-- Claim C7: on a unit constructed with the bypass flag set, after any
sequence of public operations, whenever an engine handle exists it is the
standalone playback engine (not a voice-processing engine), and Render
forwards to exactly that engine and returns the platform's render status
unchanged. -/
theorem render_bypass_delegates_to_playback
    (ops : List Op) (observer : Nat) (p : Platform)
    (flags time_stamp bus num_frames io_data : Nat) (e : Engine)
    (h : (run (construct true observer) ops).1.vpio_unit_ = some e) :
    e.kind = EngineKind.playback ∧
    Render p (run (construct true observer) ops).1
        flags time_stamp bus num_frames io_data =
      (p.render_status,
       [EngineEvent.render e flags time_stamp bus num_frames io_data]) := by
  have hb := run_bypass (construct true observer) ops
  have hk := run_kindOK (construct true observer) ops (by rfl)
  rw [engineKindMatchesBypass] at hk
  rw [h] at hk
  have hb' : (run (construct true observer) ops).1.bypass_voice_processing_ =
      true := hb
  rw [hb'] at hk
  simp at hk
  exact ⟨hk, by simp [Render, h]⟩

/-- Claim C7 witness: after initializing a bypass unit, the engine handle is
the playback engine and Render forwards to it. -/
theorem render_bypass_delegates_to_playback_witness :
    ({ kind := EngineKind.playback, id := 5 } : Engine).kind =
        EngineKind.playback ∧
    Render platform0 (run (construct true 2) [Op.initializeOp platform0 48000]).1
        0 0 0 480 0 =
      (platform0.render_status,
       [EngineEvent.render { kind := EngineKind.playback, id := 5 } 0 0 0 480 0]) :=
  render_bypass_delegates_to_playback [Op.initializeOp platform0 48000] 2
    platform0 0 0 0 480 0 { kind := EngineKind.playback, id := 5 } (by decide)

/-- Claim C8: Uninitialize never signals failure outward (its return carries
no failure channel), resets the state to Uninitialized and releases the
engine handle whatever the platform teardown reports; it emits exactly one
disposal when a handle existed and none otherwise, and a subsequent
destruction emits no further disposal (teardown is idempotent). -/
theorem uninitialize_idempotent_teardown
    (p q : Platform) (u : VoiceProcessingAudioUnit) :
    GetState ( Uninitialize p u).1 = State.kUninitialized ∧
    ( Uninitialize p u).1.vpio_unit_ = none ∧
    ( Uninitialize p u).2.2 =
      (match u.vpio_unit_ with
       | some e => [EngineEvent.dispose e]
       | none => []) ∧
    (destruct q ( Uninitialize p u).1).2.2 = [] ∧
    GetState (destruct q ( Uninitialize p u).1).1 = State.kUninitialized := by
  cases hs : u.state_ <;>
    simp [ Uninitialize, destruct, Stop, DisposeAudioUnit, GetState, hs]

/-- Claim C9: the bypass flag is immutable: it is preserved unchanged by
every sequence of public operations, and the engine topology always matches
it (the choice is never switched at runtime). -/
theorem bypass_flag_immutable
    (u : VoiceProcessingAudioUnit) (ops : List Op)
    (h : engineKindMatchesBypass u = true) :
    (run u ops).1.bypass_voice_processing_ = u.bypass_voice_processing_ ∧
    engineKindMatchesBypass (run u ops).1 = true :=
  ⟨run_bypass u ops, run_kindOK u ops h⟩

/-- Claim C9 witness: on the sample initialize-then-start sequence the
bypass flag and the matching topology are preserved. -/
theorem bypass_flag_immutable_witness :
    (run unitBypass opsDemo).1.bypass_voice_processing_ =
        unitBypass.bypass_voice_processing_ ∧
    engineKindMatchesBypass (run unitBypass opsDemo).1 = true :=
  bypass_flag_immutable unitBypass opsDemo rfl

/-- Claim C10: EnableRecording and EnablePlayout, whatever they return,
change nothing but the corresponding enable flag: the lifecycle state, the
captured sample rate, the observer pointer, the engine handle, the bypass
flag and the other direction's enable flag keep their prior values. -/
theorem enable_toggles_frame_condition
    (p : Platform) (u : VoiceProcessingAudioUnit) (enable : Bool) :
    ((EnableRecording p u enable).2.state_ = u.state_ ∧
     (EnableRecording p u enable).2.sample_rate_ = u.sample_rate_ ∧
     (EnableRecording p u enable).2.observer_ = u.observer_ ∧
     (EnableRecording p u enable).2.vpio_unit_ = u.vpio_unit_ ∧
     (EnableRecording p u enable).2.bypass_voice_processing_ =
       u.bypass_voice_processing_ ∧
     (EnableRecording p u enable).2.enable_playout_ = u.enable_playout_) ∧
    ((EnablePlayout p u enable).2.state_ = u.state_ ∧
     (EnablePlayout p u enable).2.sample_rate_ = u.sample_rate_ ∧
     (EnablePlayout p u enable).2.observer_ = u.observer_ ∧
     (EnablePlayout p u enable).2.vpio_unit_ = u.vpio_unit_ ∧
     (EnablePlayout p u enable).2.bypass_voice_processing_ =
       u.bypass_voice_processing_ ∧
     (EnablePlayout p u enable).2.enable_recording_ = u.enable_recording_) := by
  unfold EnableRecording EnablePlayout
  split_ifs <;> simp

end ios_adm

end webrtc
